import Mathlib

/-!
Shallow embedding of `src/app.py` (class `PersonalChatbot`) for the
personal-website-chatbot repository.

The two external language-model endpoints are modelled by an oracle
environment `Env`: `Env.gen` gives the primary completion endpoint's
behaviour on a request (`none` models the call raising an exception) and
`Env.evaluator` gives the evaluator endpoint's behaviour (it can raise, or
return a response whose parsed object is absent, or return a parsed
`Evaluation`).  Every embedded operation also returns the list of network
calls it performs, in order, so call-count and call-content properties are
provable.

Python string primitives used by the source (`strip`, `lower`, `title`,
`join`, the `in` substring test) are embedded as executable Lean functions
over `String.data`; they model the ASCII behaviour of the Python
primitives, which is all the source relies on.
-/

namespace PersonalWebsiteChatbot

set_option maxRecDepth 1000000

/-- ASCII whitespace, as removed by Python `str.strip()` with no argument. -/
def isPySpace (c : Char) : Bool :=
  c = ' ' || c = '\t' || c = '\n' || c = '\r' || c = '\x0b' || c = '\x0c'

/-- Python `s.strip()`: remove leading and trailing whitespace. -/
def pyStrip (s : String) : String :=
  ⟨((s.data.dropWhile isPySpace).reverse.dropWhile isPySpace).reverse⟩

/-- Python `s.lower()` (ASCII case folding). -/
def pyLower (s : String) : String :=
  ⟨s.data.map Char.toLower⟩

/-- Auxiliary for `pyTitle`: the boolean records whether the previous
character was alphabetic (cased). -/
def pyTitleAux : Bool → List Char → List Char
  | _, [] => []
  | prevAlpha, c :: cs =>
      (if prevAlpha then c.toLower else c.toUpper) :: pyTitleAux c.isAlpha cs

/-- Python `s.title()` (ASCII): the first letter of each alphabetic run is
upper-cased, the rest of the run is lower-cased. -/
def pyTitle (s : String) : String :=
  ⟨pyTitleAux false s.data⟩

/-- Python `sep.join(xs)`. -/
def pyJoin (sep : String) : List String → String
  | [] => ""
  | [x] => x
  | x :: y :: xs => x ++ sep ++ pyJoin sep (y :: xs)

/-- Python `pat in s` (substring test), executable. -/
def pyIn (pat s : String) : Bool :=
  decide (pat.data <:+: s.data)

/-- The string `pat` occurs verbatim as a (contiguous) substring of `s`. -/
def containsStr (s pat : String) : Prop :=
  pat.data <:+: s.data

instance (s pat : String) : Decidable (containsStr s pat) :=
  inferInstanceAs (Decidable (pat.data <:+: s.data))

/-- One chat message dict, with a role key and a content key.  A key may be
absent, matching the source's use of `msg.get` with the defaults
`unknown` for the role and the empty string for the content. -/
structure Msg where
  role : Option String
  content : Option String
deriving DecidableEq

/-- The structured verdict schema (`class Evaluation(BaseModel)`). -/
structure Evaluation where
  is_acceptable : Bool
  feedback : String
deriving DecidableEq

/-- A request to the primary completion endpoint: the composed message list
and the model id (temperature 0.7 and max_tokens 1000 are fixed by the
source and carry no information). -/
structure GenCall where
  messages : List Msg
  model : String
deriving DecidableEq

/-- A request to the evaluator endpoint (model "gemini-2.5-flash" and the
`Evaluation` response format are fixed by the source). -/
structure EvalCall where
  messages : List Msg
deriving DecidableEq

/-- A network call made during one turn. -/
inductive Call where
  | generatorCall : GenCall → Call
  | evaluatorCall : EvalCall → Call
deriving DecidableEq

/-- Outcome of the evaluator endpoint: the call raises, or returns a
response whose `.parsed` field is `None`, or returns a parsed verdict. -/
inductive EvalOutcome where
  | raised : EvalOutcome
  | parsedNone : EvalOutcome
  | parsed : Evaluation → EvalOutcome
deriving DecidableEq

/-- Oracle for the two external endpoints.  `gen c = none` models the
primary completion call raising a transport/API exception. -/
structure Env where
  gen : GenCall → Option String
  evaluator : EvalCall → EvalOutcome

/-- The assistant instance state after `__init__`: name, loaded profile
texts, and the two prompts built by `_create_prompts`. -/
structure Bot where
  name : String
  summary_content : String
  linkedin_content : String
  system_prompt : String
  evaluator_system_prompt : String

/-- The fixed persona framing of the assistant system prompt
(`_create_prompts`, `base_prompt`). -/
def basePromptText (name : String) : String :=
  "You are acting as " ++ name ++ ". You are answering questions on " ++ name ++
  "'s website, particularly questions related to " ++ name ++
  "'s career, background, skills and experience. " ++
  "Your responsibility is to represent " ++ name ++
  " for interactions on the website as faithfully as possible. " ++
  "You are given a summary of " ++ name ++
  "'s background and LinkedIn profile which you can use to answer questions. " ++
  "Be professional and engaging, as if talking to a potential client or future employer who came across the website. " ++
  "If you don't know the answer, say so politely and suggest they contact " ++ name ++ " directly."

/-- The fixed persona framing of the evaluator system prompt
(`_create_prompts`, `evaluator_base`). -/
def evaluatorBaseText (name : String) : String :=
  "You are an evaluator that decides whether a response to a question is acceptable quality. " ++
  "You are provided with a conversation between a User and an Agent. Your task is to decide whether the Agent's latest response is acceptable. " ++
  "The Agent is playing the role of " ++ name ++ " and is representing " ++ name ++
  " on their website. " ++
  "The Agent has been instructed to be professional and engaging, as if talking to a potential client or future employer. " ++
  "The Agent has been provided with context on " ++ name ++ ". Here's the information:"

/-- Assistant system prompt built by `_create_prompts` (a profile text that
is the empty string is falsy in Python, so its section is skipped). -/
def create_system_prompt (name summary linkedin : String) : String :=
  let base := basePromptText name
  let base := if summary = "" then base else base ++ "\n\n## Summary:\n" ++ summary
  let base := if linkedin = "" then base else base ++ "\n\n## LinkedIn Profile:\n" ++ linkedin
  base ++ "\n\nWith this context, please chat with the user, always staying in character as " ++ name ++ "."

/-- Evaluator system prompt built by `_create_prompts`. -/
def create_evaluator_prompt (name summary linkedin : String) : String :=
  let base := evaluatorBaseText name
  let base := if summary = "" then base else base ++ "\n\n## Summary:\n" ++ summary
  let base := if linkedin = "" then base else base ++ "\n\n## LinkedIn Profile:\n" ++ linkedin
  base ++ "\n\nWith this context, please evaluate the latest response, replying with whether the response is acceptable and your feedback."

/-- A `PersonalChatbot` instance whose profile loading produced the given
texts: `_create_prompts` derives both prompts from them. -/
def mkBot (name summary linkedin : String) : Bot :=
  ⟨name, summary, linkedin,
   create_system_prompt name summary linkedin,
   create_evaluator_prompt name summary linkedin⟩

/-- The method `_format_conversation_history`: empty history yields a fixed
placeholder; otherwise each turn is rendered as the title-cased role, a
colon and a space, then the content (building the list with a loop, as the
source does), and the rendered turns are joined with a blank line. -/
def format_conversation_history (history : List Msg) : String :=
  if history = [] then "No previous conversation."
  else
    pyJoin "\n\n"
      (history.foldl
        (fun acc msg => acc ++ [pyTitle (msg.role.getD "unknown") ++ ": " ++ msg.content.getD ""])
        [])

/-- The canned apology returned by `_generate_response` on failure (and by
`chat`'s top-level `except`). -/
def apology (name : String) : String :=
  "I apologize, but I'm experiencing technical difficulties. Please try again later or contact " ++
  name ++ " directly."

/-- Default model id of `_generate_response` (also passed explicitly by
`regenerate_response`). -/
def default_model : String := "tngtech/deepseek-r1t2-chimera:free"

/-- The message list composed by `_generate_response`: one system message
holding the system prompt, then the history, then one user message holding
the incoming message. -/
def genMessages (system_prompt : String) (history : List Msg) (message : String) : List Msg :=
  { role := some "system", content := some system_prompt } ::
    (history ++ [{ role := some "user", content := some message }])

/-- The method `_generate_response`: one call to the primary endpoint; on
failure the canned apology is returned instead of raising. -/
def generate_response (env : Env) (bot : Bot) (message : String) (history : List Msg)
    (system_prompt : String) (model : String) : String × List Call :=
  let c : GenCall := ⟨genMessages system_prompt history message, model⟩
  match env.gen c with
  | some content => (content, [Call.generatorCall c])
  | none => (apology bot.name, [Call.generatorCall c])

/-- The user prompt composed by `evaluate_response`. -/
def evalUserPrompt (reply message : String) (history : List Msg) : String :=
  "Here's the conversation between the User and the Agent:\n\n" ++
  format_conversation_history history ++ "\n\n" ++
  "Here's the latest message from the User:\n\n" ++ message ++ "\n\n" ++
  "Here's the latest response from the Agent:\n\n" ++ reply ++ "\n\n" ++
  "Please evaluate the response, replying with whether it is acceptable and your feedback."

/-- The two-message list sent to the evaluator endpoint. -/
def evalMessages (bot : Bot) (reply message : String) (history : List Msg) : List Msg :=
  [{ role := some "system", content := some bot.evaluator_system_prompt },
   { role := some "user", content := some (evalUserPrompt reply message history) }]

/-- The method `evaluate_response`.  If the endpoint call raises, the
`except` branch returns the fail-open verdict; if the response parses to
`None`, the method returns `None` (the raise happens later, at the caller's
attribute access, modelled by the first component being `none`). -/
def evaluate_response (env : Env) (bot : Bot) (reply message : String) (history : List Msg) :
    Option Evaluation × List Call :=
  let c : EvalCall := ⟨evalMessages bot reply message history⟩
  match env.evaluator c with
  | EvalOutcome.raised => (some ⟨true, "Evaluation service unavailable"⟩, [Call.evaluatorCall c])
  | EvalOutcome.parsedNone => (none, [Call.evaluatorCall c])
  | EvalOutcome.parsed e => (some e, [Call.evaluatorCall c])

/-- The `updated_system_prompt` built by `regenerate_response`, in the
source's own concatenation order. -/
def updated_system_prompt (bot : Bot) (original_reply feedback : String) : String :=
  bot.system_prompt ++
  "\n\n## Previous answer rejected\n" ++
  "You just tried to reply, but the quality control rejected your reply.\n" ++
  "## Your attempted answer:\n" ++ original_reply ++ "\n\n" ++
  "## Reason for rejection:\n" ++ feedback ++ "\n\n" ++
  "Please provide a better response that addresses the feedback."

/-- The method `regenerate_response`. -/
def regenerate_response (env : Env) (bot : Bot) (original_reply message : String)
    (history : List Msg) (feedback : String) : String × List Call :=
  generate_response env bot message history
    (updated_system_prompt bot original_reply feedback) default_model

/-- The pig-latin constraint appended for patent questions in `chat`. -/
def pigLatinNote : String :=
  "\n\nIMPORTANT: Everything in your reply needs to be in pig latin - " ++
  "it is mandatory that you respond only and entirely in pig latin."

/-- The fixed prompt-for-input string returned for blank messages. -/
def prompt_for_input : String :=
  "Please ask me a question about my background, experience, or skills!"

/-- The effective system prompt chosen by `chat` (`system_to_use`):
the pig-latin note is appended iff `"patent" in message.lower()`. -/
def system_to_use (bot : Bot) (message : String) : String :=
  if pyIn "patent" (pyLower message) then bot.system_prompt ++ pigLatinNote
  else bot.system_prompt

/-- The body of `chat`'s `try` block.  `Except.error` models an exception
reaching the top-level handler: the only uncaught raise site is the
attribute access `evaluation.is_acceptable` when `evaluate_response`
returned `None`; the error payload carries the calls already made. -/
def chatTry (env : Env) (bot : Bot) (message : String) (history : List Msg) :
    Except (List Call) (String × List Call) :=
  let sys := system_to_use bot message
  let gr := generate_response env bot message history sys default_model
  let reply := gr.fst
  let er := evaluate_response env bot reply message history
  match er.fst with
  | some evaluation =>
      if evaluation.is_acceptable then Except.ok (reply, gr.snd ++ er.snd)
      else
        let rr := regenerate_response env bot reply message history evaluation.feedback
        Except.ok (rr.fst, gr.snd ++ er.snd ++ rr.snd)
  | none => Except.error (gr.snd ++ er.snd)

/-- The method `chat`: blank-message guard, then the `try` block with the
top-level `except` converting any uncaught failure into the apology. -/
def chat (env : Env) (bot : Bot) (message : String) (history : List Msg) : String × List Call :=
  if pyStrip message = "" then (prompt_for_input, [])
  else
    match chatTry env bot message history with
    | Except.ok r => r
    | Except.error t => (apology bot.name, t)

/-- The first generator request `chat` issues for a given message. -/
def first_call (bot : Bot) (message : String) (history : List Msg) : GenCall :=
  ⟨genMessages (system_to_use bot message) history message, default_model⟩

/-- The reply obtained from the first generation (apology if it failed). -/
def first_reply (env : Env) (bot : Bot) (message : String) (history : List Msg) : String :=
  (generate_response env bot message history (system_to_use bot message) default_model).fst

/-- The evaluator request issued for a given reply. -/
def eval_call (bot : Bot) (reply message : String) (history : List Msg) : EvalCall :=
  ⟨evalMessages bot reply message history⟩

/-- The regeneration request issued after a rejection. -/
def regen_call (bot : Bot) (original_reply feedback message : String) (history : List Msg) : GenCall :=
  ⟨genMessages (updated_system_prompt bot original_reply feedback) history message, default_model⟩

/-- The fixed text prepended to the rejected reply in the regeneration
prompt (the source's first three literal chunks, concatenated). -/
def rejHeader : String :=
  "\n\n## Previous answer rejected\n" ++
  "You just tried to reply, but the quality control rejected your reply.\n" ++
  "## Your attempted answer:\n"

/-- The fixed text between the rejected reply and the feedback in the
regeneration prompt. -/
def rejMid : String := "\n\n" ++ "## Reason for rejection:\n"

/-- The fixed text after the feedback in the regeneration prompt. -/
def rejTail : String := "\n\n" ++ "Please provide a better response that addresses the feedback."

/-- The marker phrase of the pig-latin constraint, as a character list. -/
def pigWord : List Char := "pig latin".data

/-- A small concrete assistant instance, used to instantiate theorems. -/
def demoBot : Bot := ⟨"N", "", "", "S", "E"⟩

/-- Oracle: generation succeeds, the evaluator accepts. -/
def envAccept : Env := ⟨fun _ => some "All good", fun _ => EvalOutcome.parsed ⟨true, "fine"⟩⟩

/-- Oracle: generation succeeds, the evaluator rejects with fixed feedback. -/
def envReject : Env := ⟨fun _ => some "draft", fun _ => EvalOutcome.parsed ⟨false, "too short"⟩⟩

/-- Oracle: generation succeeds, the evaluator call raises. -/
def envEvalRaise : Env := ⟨fun _ => some "draft", fun _ => EvalOutcome.raised⟩

/-- Oracle: every generation call raises, the evaluator accepts. -/
def envGenFail : Env := ⟨fun _ => none, fun _ => EvalOutcome.parsed ⟨true, "ok"⟩⟩

/-- Oracle: the generation call with system prompt "S" (the first call for
`demoBot`) raises, any other generation call succeeds, and the evaluator
rejects whatever it sees. -/
def envGenFailThenFix : Env :=
  ⟨fun c => if (c.messages.headD ⟨none, none⟩).content = some "S" then none else some "Better",
   fun _ => EvalOutcome.parsed ⟨false, "bad"⟩⟩

/-! ## General helper lemmas -/

/-- If a list is a prefix of an append and fits inside the first part, it
is a prefix of the first part. -/
theorem prefix_of_append_of_le {α : Type} {q a b : List α} (hlen : q.length ≤ a.length)
    (h : q <+: a ++ b) : q <+: a := by
  obtain ⟨t, ht⟩ := h
  have h1 : (q ++ t).take q.length = q := List.take_left q t
  rw [ht, List.take_append_eq_append_take, Nat.sub_eq_zero_of_le hlen, List.take_zero,
    List.append_nil] at h1
  exact h1 ▸ List.take_prefix _ _

/-- An occurrence of `w` inside `a ++ b` lies within `a`, lies within `b`,
or splits into a nonempty suffix of `a` followed by a nonempty prefix of
`b`. -/
theorem infix_append_cases {α : Type} {w a b : List α} (h : w <:+: a ++ b) :
    w <:+: a ∨ w <:+: b ∨
      ∃ p q, w = p ++ q ∧ p ≠ [] ∧ q ≠ [] ∧ p <:+ a ∧ q <+: b := by
  obtain ⟨s, t, hst⟩ := h
  have hlen := congrArg List.length hst
  simp only [List.length_append] at hlen
  by_cases h1 : s.length + w.length ≤ a.length
  · left
    have key := congrArg (List.take a.length) hst
    rw [List.take_left] at key
    rw [List.take_append_eq_append_take, List.take_append_eq_append_take] at key
    rw [List.take_of_length_le (by omega), List.take_of_length_le (by omega)] at key
    exact ⟨s, _, key⟩
  · by_cases h2 : a.length ≤ s.length
    · right; left
      have key := congrArg (List.drop a.length) hst
      rw [List.drop_left] at key
      rw [List.drop_append_eq_append_drop, List.drop_append_eq_append_drop] at key
      rw [Nat.sub_eq_zero_of_le h2, List.drop_zero] at key
      have h3 : a.length - (s ++ w).length = 0 := by rw [List.length_append]; omega
      rw [h3, List.drop_zero] at key
      exact ⟨s.drop a.length, t, key⟩
    · right; right
      refine ⟨w.take (a.length - s.length), w.drop (a.length - s.length),
        (List.take_append_drop _ _).symm, ?_, ?_, ?_, ?_⟩
      · apply List.ne_nil_of_length_pos
        rw [List.length_take]; omega
      · apply List.ne_nil_of_length_pos
        rw [List.length_drop]; omega
      · refine ⟨s, ?_⟩
        have key := congrArg (List.take a.length) hst
        rw [List.take_left] at key
        rw [List.take_append_eq_append_take, List.take_append_eq_append_take] at key
        rw [List.take_of_length_le (by omega)] at key
        have h3 : a.length - (s ++ w).length = 0 := by rw [List.length_append]; omega
        rw [h3, List.take_zero, List.append_nil] at key
        exact key
      · refine ⟨t, ?_⟩
        have key := congrArg (List.drop a.length) hst
        rw [List.drop_left] at key
        rw [List.drop_append_eq_append_drop, List.drop_append_eq_append_drop] at key
        rw [List.drop_eq_nil_of_le (by omega), List.nil_append] at key
        have h3 : a.length - (s ++ w).length = 0 := by rw [List.length_append]; omega
        rw [h3, List.drop_zero] at key
        exact key

/-- If no nonempty proper suffix of `w` is a prefix of `t`, then no
occurrence of `w` can end inside `t` after crossing into it. -/
theorem cross_right_contra {w t : List Char}
    (hall : ∀ k, k < w.length → 0 < k → ¬ (w.drop k <+: t))
    {p q : List Char} (hpq : w = p ++ q) (hp : p ≠ []) (hq : q ≠ []) (hqt : q <+: t) :
    False := by
  have hql : q = w.drop p.length := by rw [hpq, List.drop_left]
  have h1 : 0 < p.length := List.length_pos.mpr hp
  have h2 : p.length < w.length := by
    have h3 := List.length_pos.mpr hq
    rw [hpq, List.length_append]; omega
  exact hall p.length h2 h1 (hql ▸ hqt)

/-- If no nonempty proper prefix of `w` is a suffix of `t`, then no
occurrence of `w` can start inside `t` before crossing out of it. -/
theorem cross_left_contra {w t : List Char}
    (hall : ∀ k, k < w.length → 0 < k → ¬ (w.take k <:+ t))
    {p q : List Char} (hpq : w = p ++ q) (hp : p ≠ []) (hq : q ≠ []) (hpt : p <:+ t) :
    False := by
  have hpl : p = w.take p.length := by rw [hpq, List.take_left]
  have h1 : 0 < p.length := List.length_pos.mpr hp
  have h2 : p.length < w.length := by
    have h3 := List.length_pos.mpr hq
    rw [hpq, List.length_append]; omega
  exact hall p.length h2 h1 (hpl ▸ hpt)

/-! ## Structural lemmas about the embedded operations -/

/-- A generation attempt issues exactly its own request, whether or not the
endpoint raises. -/
theorem generate_response_snd (env : Env) (bot : Bot) (m : String) (h : List Msg)
    (sys model : String) :
    (generate_response env bot m h sys model).snd
      = [Call.generatorCall ⟨genMessages sys h m, model⟩] := by
  simp only [generate_response]
  cases env.gen ⟨genMessages sys h m, model⟩ <;> rfl

/-- An evaluation attempt issues exactly its own request, whatever the
outcome. -/
theorem evaluate_response_snd (env : Env) (bot : Bot) (r m : String) (h : List Msg) :
    (evaluate_response env bot r m h).snd
      = [Call.evaluatorCall ⟨evalMessages bot r m h⟩] := by
  simp only [evaluate_response]
  cases env.evaluator ⟨evalMessages bot r m h⟩ <;> rfl

/-- When the evaluator endpoint returns a parsed verdict, `evaluate_response`
returns it. -/
theorem evaluate_response_fst_parsed (env : Env) (bot : Bot) (r m : String) (h : List Msg)
    (e : Evaluation) (he : env.evaluator ⟨evalMessages bot r m h⟩ = EvalOutcome.parsed e) :
    (evaluate_response env bot r m h).fst = some e := by
  simp only [evaluate_response]
  rw [he]

/-- When the evaluator endpoint raises, `evaluate_response` returns the
fail-open verdict of the source's except branch. -/
theorem evaluate_response_fst_raised (env : Env) (bot : Bot) (r m : String) (h : List Msg)
    (he : env.evaluator ⟨evalMessages bot r m h⟩ = EvalOutcome.raised) :
    (evaluate_response env bot r m h).fst
      = some ⟨true, "Evaluation service unavailable"⟩ := by
  simp only [evaluate_response]
  rw [he]

/-- The loop appending one rendered turn at a time produces the map of the
rendering over the history. -/
theorem foldl_push_eq_map {α β : Type} (f : α → β) (l : List α) (acc : List β) :
    l.foldl (fun a x => a ++ [f x]) acc = acc ++ l.map f := by
  induction l generalizing acc with
  | nil => simp
  | cons x xs ih => simp [ih]

/-- The regeneration prompt, regrouped into its six segments. -/
theorem updated_grouped (bot : Bot) (r fb : String) :
    updated_system_prompt bot r fb
      = bot.system_prompt ++ (rejHeader ++ (r ++ (rejMid ++ (fb ++ rejTail)))) := by
  simp [updated_system_prompt, rejHeader, rejMid, rejTail, String.append_assoc]

/-! ## Occurrence analysis of the pig-latin marker in the regeneration
prompt -/

theorem pig_not_in_rejHeader : ¬ pigWord <:+: rejHeader.data := by decide

theorem pig_not_in_rejMid : ¬ pigWord <:+: rejMid.data := by decide

theorem pig_not_in_rejTail : ¬ pigWord <:+: rejTail.data := by decide

theorem pig_sfx_rejHeader :
    ∀ k, k < pigWord.length → 0 < k → ¬ (pigWord.drop k <+: rejHeader.data) := by decide

theorem pig_sfx_rejMid :
    ∀ k, k < pigWord.length → 0 < k → ¬ (pigWord.drop k <+: rejMid.data) := by decide

theorem pig_sfx_rejTail :
    ∀ k, k < pigWord.length → 0 < k → ¬ (pigWord.drop k <+: rejTail.data) := by decide

theorem pig_pfx_rejHeader :
    ∀ k, k < pigWord.length → 0 < k → ¬ (pigWord.take k <:+ rejHeader.data) := by decide

theorem pig_pfx_rejMid :
    ∀ k, k < pigWord.length → 0 < k → ¬ (pigWord.take k <:+ rejMid.data) := by decide

theorem pigWord_le_rejHeader : pigWord.length ≤ rejHeader.data.length := by decide

theorem pigWord_le_rejMid : pigWord.length ≤ rejMid.data.length := by decide

/-- The marker phrase cannot occur in the six-segment concatenation forming
the regeneration prompt when it occurs in none of the three variable
segments: an occurrence would lie inside one segment or cross one of the
five boundaries, and every case is refuted. -/
theorem pigWord_not_in_updated_list (sp r fb : List Char)
    (hsp : ¬ pigWord <:+: sp) (hr : ¬ pigWord <:+: r) (hfb : ¬ pigWord <:+: fb) :
    ¬ pigWord <:+: sp ++ (rejHeader.data ++ (r ++ (rejMid.data ++ (fb ++ rejTail.data)))) := by
  intro h
  rcases infix_append_cases h with h | h | ⟨p, q, hpq, hp, hq, hps, hqp⟩
  · exact hsp h
  · rcases infix_append_cases h with h | h | ⟨p, q, hpq, hp, hq, hps, hqp⟩
    · exact pig_not_in_rejHeader h
    · rcases infix_append_cases h with h | h | ⟨p, q, hpq, hp, hq, hps, hqp⟩
      · exact hr h
      · rcases infix_append_cases h with h | h | ⟨p, q, hpq, hp, hq, hps, hqp⟩
        · exact pig_not_in_rejMid h
        · rcases infix_append_cases h with h | h | ⟨p, q, hpq, hp, hq, hps, hqp⟩
          · exact hfb h
          · exact pig_not_in_rejTail h
          · exact cross_right_contra pig_sfx_rejTail hpq hp hq hqp
        · exact cross_left_contra pig_pfx_rejMid hpq hp hq hps
      · have hqlen : q.length ≤ pigWord.length := by
          rw [hpq, List.length_append]; omega
        exact cross_right_contra pig_sfx_rejMid hpq hp hq
          (prefix_of_append_of_le (le_trans hqlen pigWord_le_rejMid) hqp)
    · exact cross_left_contra pig_pfx_rejHeader hpq hp hq hps
  · have hqlen : q.length ≤ pigWord.length := by
      rw [hpq, List.length_append]; omega
    exact cross_right_contra pig_sfx_rejHeader hpq hp hq
      (prefix_of_append_of_le (le_trans hqlen pigWord_le_rejHeader) hqp)

/-- The pig-latin constraint never occurs in a regeneration prompt whose
base prompt, rejected reply and feedback are all free of the phrase
"pig latin". -/
theorem pigLatinNote_not_in_updated (bot : Bot) (r fb : String)
    (hsp : ¬ containsStr bot.system_prompt "pig latin")
    (hr : ¬ containsStr r "pig latin")
    (hfb : ¬ containsStr fb "pig latin") :
    ¬ containsStr (updated_system_prompt bot r fb) pigLatinNote := by
  intro h
  have hw : pigWord <:+: pigLatinNote.data := by decide
  have h2 : pigWord <:+: (updated_system_prompt bot r fb).data := hw.trans h
  rw [updated_grouped, String.data_append, String.data_append, String.data_append,
    String.data_append, String.data_append] at h2
  exact pigWord_not_in_updated_list _ _ _ hsp hr hfb h2

/-! ## Claim theorems -/

/-- C1: for every non-blank message and history, if the evaluator's parsed
verdict is not acceptable, `chat` makes exactly the three calls first
generation, evaluation, one regeneration — no second evaluation and no
further retry — where the regeneration prompt contains the rejected first
reply and the feedback verbatim, and returns the regeneration call's
output unconditionally. -/
theorem rejected_reply_single_regeneration (env : Env) (bot : Bot) (m : String) (h : List Msg)
    (hm : pyStrip m ≠ "") (fb : String)
    (he : env.evaluator (eval_call bot (first_reply env bot m h) m h)
        = EvalOutcome.parsed ⟨false, fb⟩) :
    chat env bot m h =
      ((generate_response env bot m h
          (updated_system_prompt bot (first_reply env bot m h) fb) default_model).fst,
       [Call.generatorCall (first_call bot m h),
        Call.evaluatorCall (eval_call bot (first_reply env bot m h) m h),
        Call.generatorCall (regen_call bot (first_reply env bot m h) fb m h)]) ∧
    containsStr (updated_system_prompt bot (first_reply env bot m h) fb)
      (first_reply env bot m h) ∧
    containsStr (updated_system_prompt bot (first_reply env bot m h) fb) fb := by
  refine ⟨?_, ?_, ?_⟩
  · simp only [chat, chatTry]
    rw [if_neg hm]
    unfold first_reply eval_call at he
    rw [evaluate_response_fst_parsed _ _ _ _ _ _ he]
    simp only [regenerate_response]
    rw [generate_response_snd, evaluate_response_snd, generate_response_snd]
    unfold first_reply first_call eval_call regen_call
    simp
  · refine ⟨(bot.system_prompt ++ "\n\n## Previous answer rejected\n" ++
      "You just tried to reply, but the quality control rejected your reply.\n" ++
      "## Your attempted answer:\n").data,
      ("\n\n" ++ "## Reason for rejection:\n" ++ fb ++ "\n\n" ++
      "Please provide a better response that addresses the feedback.").data, ?_⟩
    simp [updated_system_prompt, List.append_assoc]
  · refine ⟨(bot.system_prompt ++ "\n\n## Previous answer rejected\n" ++
      "You just tried to reply, but the quality control rejected your reply.\n" ++
      "## Your attempted answer:\n" ++ first_reply env bot m h ++ "\n\n" ++
      "## Reason for rejection:\n").data,
      ("\n\n" ++ "Please provide a better response that addresses the feedback.").data, ?_⟩
    simp [updated_system_prompt, List.append_assoc]

/-- C1 witness: the rejection scenario instantiated with a concrete oracle
that rejects the first reply. -/
theorem rejected_reply_single_regeneration_witness :
    (chat envReject demoBot "hi" [] =
      ((generate_response envReject demoBot "hi" []
          (updated_system_prompt demoBot (first_reply envReject demoBot "hi" []) "too short")
          default_model).fst,
       [Call.generatorCall (first_call demoBot "hi" []),
        Call.evaluatorCall (eval_call demoBot (first_reply envReject demoBot "hi" []) "hi" []),
        Call.generatorCall
          (regen_call demoBot (first_reply envReject demoBot "hi" []) "too short" "hi" [])]) ∧
    containsStr (updated_system_prompt demoBot (first_reply envReject demoBot "hi" []) "too short")
      (first_reply envReject demoBot "hi" []) ∧
    containsStr (updated_system_prompt demoBot (first_reply envReject demoBot "hi" []) "too short")
      "too short") :=
  rejected_reply_single_regeneration envReject demoBot "hi" [] (by decide) "too short" rfl

/-- C2: for every non-blank message and history, if the evaluator's parsed
verdict is acceptable, `chat` returns the generator's first output verbatim
and makes no regeneration call: the trace is exactly the first generation
followed by the evaluation. -/
theorem accepted_reply_returned (env : Env) (bot : Bot) (m : String) (h : List Msg)
    (hm : pyStrip m ≠ "") (e : Evaluation)
    (he : env.evaluator (eval_call bot (first_reply env bot m h) m h) = EvalOutcome.parsed e)
    (hacc : e.is_acceptable = true) :
    chat env bot m h =
      (first_reply env bot m h,
       [Call.generatorCall (first_call bot m h),
        Call.evaluatorCall (eval_call bot (first_reply env bot m h) m h)]) := by
  simp only [chat, chatTry]
  rw [if_neg hm]
  unfold first_reply eval_call at he
  rw [evaluate_response_fst_parsed _ _ _ _ _ _ he]
  simp only [hacc, if_true]
  rw [generate_response_snd, evaluate_response_snd]
  unfold first_reply first_call eval_call
  simp

/-- C2 witness: the acceptance scenario instantiated with a concrete
accepting oracle. -/
theorem accepted_reply_returned_witness :
    chat envAccept demoBot "hi" [] =
      (first_reply envAccept demoBot "hi" [],
       [Call.generatorCall (first_call demoBot "hi" []),
        Call.evaluatorCall (eval_call demoBot (first_reply envAccept demoBot "hi" []) "hi" [])]) :=
  accepted_reply_returned envAccept demoBot "hi" [] (by decide) ⟨true, "fine"⟩ rfl rfl

/-- C3 counterexample: with a concrete oracle whose first generation call
raises (and whose later calls succeed), `chat` evaluates the apology reply,
regenerates after the rejection, and returns the regenerated output — the
final output is not the canned apology and two further external calls are
attempted after the failure (three calls in total), contradicting the claim
that the output is the apology and that no further calls are attempted. -/
theorem generator_failure_no_further_calls_cex :
    (chat envGenFailThenFix demoBot "hello" []).fst = "Better" ∧
    (chat envGenFailThenFix demoBot "hello" []).fst ≠ apology demoBot.name ∧
    (chat envGenFailThenFix demoBot "hello" []).snd.length = 3 := by
  refine ⟨by decide, by decide, by decide⟩

/-- C3 amended: if the first generation call fails, the canned apology
containing the persona name becomes the reply, and `chat` still evaluates
that apology reply; if the verdict is acceptable (or evaluation failed
open), `chat` returns the apology, and if the verdict is a rejection,
`chat` makes one regeneration call and returns its output. -/
theorem generator_failure_apology (env : Env) (bot : Bot) (m : String) (h : List Msg)
    (hm : pyStrip m ≠ "")
    (hg : env.gen (first_call bot m h) = none) :
    first_reply env bot m h = apology bot.name ∧
    (∀ e : Evaluation,
      env.evaluator (eval_call bot (apology bot.name) m h) = EvalOutcome.parsed e →
      (e.is_acceptable = true →
        chat env bot m h =
          (apology bot.name,
           [Call.generatorCall (first_call bot m h),
            Call.evaluatorCall (eval_call bot (apology bot.name) m h)])) ∧
      (e.is_acceptable = false →
        chat env bot m h =
          ((generate_response env bot m h
              (updated_system_prompt bot (apology bot.name) e.feedback) default_model).fst,
           [Call.generatorCall (first_call bot m h),
            Call.evaluatorCall (eval_call bot (apology bot.name) m h),
            Call.generatorCall (regen_call bot (apology bot.name) e.feedback m h)]))) ∧
    (env.evaluator (eval_call bot (apology bot.name) m h) = EvalOutcome.raised →
      chat env bot m h =
        (apology bot.name,
         [Call.generatorCall (first_call bot m h),
          Call.evaluatorCall (eval_call bot (apology bot.name) m h)])) := by
  unfold first_call at hg
  have h1 : (generate_response env bot m h (system_to_use bot m) default_model).fst
      = apology bot.name := by
    simp only [generate_response]
    rw [hg]
  refine ⟨h1, ?_, ?_⟩
  · intro e hev
    unfold eval_call at hev
    constructor
    · intro hacc
      simp only [chat, chatTry]
      rw [if_neg hm]
      rw [h1, evaluate_response_fst_parsed _ _ _ _ _ _ hev]
      simp only [hacc, if_true]
      rw [generate_response_snd, evaluate_response_snd]
      unfold first_call eval_call
      simp [h1]
    · intro hacc
      simp only [chat, chatTry]
      rw [if_neg hm]
      rw [h1, evaluate_response_fst_parsed _ _ _ _ _ _ hev]
      simp only [hacc, Bool.false_eq_true, if_false]
      simp only [regenerate_response]
      rw [generate_response_snd, evaluate_response_snd, generate_response_snd]
      unfold first_call eval_call regen_call
      simp [h1]
  · intro hev
    unfold eval_call at hev
    simp only [chat, chatTry]
    rw [if_neg hm]
    rw [h1, evaluate_response_fst_raised _ _ _ _ _ hev]
    simp only [if_true]
    rw [generate_response_snd, evaluate_response_snd]
    unfold first_call eval_call
    simp [h1]

/-- C3 witness: the amended behaviour instantiated with an oracle whose
generation calls all raise. -/
theorem generator_failure_apology_witness :
    (first_reply envGenFail demoBot "hi" [] = apology demoBot.name ∧
    (∀ e : Evaluation,
      envGenFail.evaluator (eval_call demoBot (apology demoBot.name) "hi" [])
          = EvalOutcome.parsed e →
      (e.is_acceptable = true →
        chat envGenFail demoBot "hi" [] =
          (apology demoBot.name,
           [Call.generatorCall (first_call demoBot "hi" []),
            Call.evaluatorCall (eval_call demoBot (apology demoBot.name) "hi" [])])) ∧
      (e.is_acceptable = false →
        chat envGenFail demoBot "hi" [] =
          ((generate_response envGenFail demoBot "hi" []
              (updated_system_prompt demoBot (apology demoBot.name) e.feedback)
              default_model).fst,
           [Call.generatorCall (first_call demoBot "hi" []),
            Call.evaluatorCall (eval_call demoBot (apology demoBot.name) "hi" []),
            Call.generatorCall
              (regen_call demoBot (apology demoBot.name) e.feedback "hi" [])]))) ∧
    (envGenFail.evaluator (eval_call demoBot (apology demoBot.name) "hi" [])
        = EvalOutcome.raised →
      chat envGenFail demoBot "hi" [] =
        (apology demoBot.name,
         [Call.generatorCall (first_call demoBot "hi" []),
          Call.evaluatorCall (eval_call demoBot (apology demoBot.name) "hi" [])]))) :=
  generator_failure_apology envGenFail demoBot "hi" [] (by decide) rfl

/-- C4 counterexample: when the evaluator call raises, the fail-open
verdict's feedback text is the source's string, which differs from the
string quoted by the claim. -/
theorem evaluator_fail_open_feedback_cex :
    (evaluate_response envEvalRaise demoBot "r" "m" []).fst
        = some ⟨true, "Evaluation service unavailable"⟩ ∧
    (evaluate_response envEvalRaise demoBot "r" "m" []).fst
        ≠ some ⟨true, "evaluation unavailable"⟩ := by
  refine ⟨by decide, by decide⟩

/-- C4 amended: if the evaluator call fails, `evaluate_response` returns
the fail-open verdict with acceptable true and feedback
"Evaluation service unavailable", and consequently `chat` returns the
generator's first output unchanged with no regeneration call. -/
theorem evaluator_fail_open (env : Env) (bot : Bot) (m : String) (h : List Msg)
    (hm : pyStrip m ≠ "")
    (he : env.evaluator (eval_call bot (first_reply env bot m h) m h) = EvalOutcome.raised) :
    (evaluate_response env bot (first_reply env bot m h) m h).fst
        = some ⟨true, "Evaluation service unavailable"⟩ ∧
    chat env bot m h =
      (first_reply env bot m h,
       [Call.generatorCall (first_call bot m h),
        Call.evaluatorCall (eval_call bot (first_reply env bot m h) m h)]) := by
  unfold first_reply eval_call at he
  constructor
  · unfold first_reply
    exact evaluate_response_fst_raised _ _ _ _ _ he
  · simp only [chat, chatTry]
    rw [if_neg hm]
    rw [evaluate_response_fst_raised _ _ _ _ _ he]
    simp only [if_true]
    rw [generate_response_snd, evaluate_response_snd]
    unfold first_reply first_call eval_call
    simp

/-- C4 witness: the fail-open behaviour instantiated with an oracle whose
evaluator call raises. -/
theorem evaluator_fail_open_witness :
    ((evaluate_response envEvalRaise demoBot (first_reply envEvalRaise demoBot "hi" []) "hi" []).fst
        = some ⟨true, "Evaluation service unavailable"⟩ ∧
    chat envEvalRaise demoBot "hi" [] =
      (first_reply envEvalRaise demoBot "hi" [],
       [Call.generatorCall (first_call demoBot "hi" []),
        Call.evaluatorCall
          (eval_call demoBot (first_reply envEvalRaise demoBot "hi" []) "hi" [])])) :=
  evaluator_fail_open envEvalRaise demoBot "hi" [] (by decide) rfl

/-- C5: for every non-blank message, the first generator call of `chat`
carries the effective system prompt, which contains the pig-latin
stylistic-transform instruction exactly when the message contains the
trigger keyword "patent" case-insensitively (assuming the base prompt does
not itself contain the instruction); otherwise the plain assistant system
prompt is passed. -/
theorem patent_trigger_prompt (env : Env) (bot : Bot) (m : String) (h : List Msg)
    (hm : pyStrip m ≠ "")
    (hsp : ¬ containsStr bot.system_prompt pigLatinNote) :
    (chat env bot m h).snd.head? = some (Call.generatorCall (first_call bot m h)) ∧
    (containsStr (system_to_use bot m) pigLatinNote ↔ pyIn "patent" (pyLower m) = true) ∧
    (pyIn "patent" (pyLower m) = false → system_to_use bot m = bot.system_prompt) := by
  refine ⟨?_, ⟨?_, ?_⟩, ?_⟩
  · simp only [chat, chatTry]
    rw [if_neg hm]
    rcases hv : (evaluate_response env bot
        (generate_response env bot m h (system_to_use bot m) default_model).1 m h).1 with _ | e
    · simp only [hv]
      rw [generate_response_snd]
      simp [first_call]
    · by_cases ha : e.is_acceptable <;>
        simp only [hv, ha, Bool.false_eq_true, if_true, if_false] <;>
        rw [generate_response_snd] <;>
        simp [first_call]
  · intro hcontains
    by_cases htr : pyIn "patent" (pyLower m) = true
    · exact htr
    · exfalso
      apply hsp
      unfold system_to_use at hcontains
      rwa [if_neg (by simpa using htr)] at hcontains
  · intro htrig
    unfold system_to_use
    rw [if_pos (by simpa using htrig)]
    exact ⟨bot.system_prompt.data, [], by simp⟩
  · intro hfalse
    unfold system_to_use
    rw [if_neg (by simp [hfalse])]

/-- C5 witness: the trigger behaviour instantiated at a concrete message
containing "patent". -/
theorem patent_trigger_prompt_witness :
    ((chat envAccept demoBot "patent?" []).snd.head?
        = some (Call.generatorCall (first_call demoBot "patent?" [])) ∧
    (containsStr (system_to_use demoBot "patent?") pigLatinNote ↔
        pyIn "patent" (pyLower "patent?") = true) ∧
    (pyIn "patent" (pyLower "patent?") = false →
        system_to_use demoBot "patent?" = demoBot.system_prompt)) :=
  patent_trigger_prompt envAccept demoBot "patent?" [] (by decide) (by decide)

/-- C6: for every history and every message whose stripped form is empty
(empty or whitespace-only), `chat` returns the fixed prompt-for-input
string and issues zero network calls. -/
theorem chat_blank_message (env : Env) (bot : Bot) (m : String) (h : List Msg)
    (hm : pyStrip m = "") : chat env bot m h = (prompt_for_input, []) := by
  simp [chat, hm]

/-- C6 witness: the short-circuit instantiated at a whitespace-only
message. -/
theorem chat_blank_message_witness :
    chat envAccept demoBot "  \t " [] = (prompt_for_input, []) :=
  chat_blank_message envAccept demoBot "  \t " [] (by decide)

/-- C7: `chat` is a total function that never propagates a failure: its
result is the blank-message prompt, or the value of the try block when that
block succeeds, or the canned apology carrying the calls already made when
the try block raises. -/
theorem chat_total_no_raise (env : Env) (bot : Bot) (m : String) (h : List Msg) :
    chat env bot m h = (prompt_for_input, []) ∨
    (∃ r, chatTry env bot m h = Except.ok r ∧ chat env bot m h = r) ∨
    (∃ t, chatTry env bot m h = Except.error t ∧
      chat env bot m h = (apology bot.name, t)) := by
  by_cases hm : pyStrip m = ""
  · left
    simp [chat, hm]
  · right
    cases hc : chatTry env bot m h with
    | ok r => exact Or.inl ⟨r, rfl, by simp [chat, hm, hc]⟩
    | error t => exact Or.inr ⟨t, rfl, by simp [chat, hm, hc]⟩

/-- C8: prompt construction is total, both prompts always extend the
persona framing text (so they are never empty of persona instructions),
and an absent profile text contributes nothing — its section is omitted
rather than raising. -/
theorem prompt_construction_persona (name summary linkedin : String) :
    (create_system_prompt name summary linkedin
       = basePromptText name
         ++ (if summary = "" then "" else "\n\n## Summary:\n" ++ summary)
         ++ (if linkedin = "" then "" else "\n\n## LinkedIn Profile:\n" ++ linkedin)
         ++ ("\n\nWith this context, please chat with the user, always staying in character as "
             ++ name ++ ".")) ∧
    (create_evaluator_prompt name summary linkedin
       = evaluatorBaseText name
         ++ (if summary = "" then "" else "\n\n## Summary:\n" ++ summary)
         ++ (if linkedin = "" then "" else "\n\n## LinkedIn Profile:\n" ++ linkedin)
         ++ ("\n\nWith this context, please evaluate the latest response, replying with whether the response is acceptable and your feedback.")) ∧
    0 < (create_system_prompt name summary linkedin).length ∧
    0 < (create_evaluator_prompt name summary linkedin).length := by
  have e1 : create_system_prompt name summary linkedin
       = basePromptText name
         ++ (if summary = "" then "" else "\n\n## Summary:\n" ++ summary)
         ++ (if linkedin = "" then "" else "\n\n## LinkedIn Profile:\n" ++ linkedin)
         ++ ("\n\nWith this context, please chat with the user, always staying in character as "
             ++ name ++ ".") := by
    by_cases h1 : summary = "" <;> by_cases h2 : linkedin = "" <;>
      simp [create_system_prompt, h1, h2, String.append_assoc]
  have e2 : create_evaluator_prompt name summary linkedin
       = evaluatorBaseText name
         ++ (if summary = "" then "" else "\n\n## Summary:\n" ++ summary)
         ++ (if linkedin = "" then "" else "\n\n## LinkedIn Profile:\n" ++ linkedin)
         ++ ("\n\nWith this context, please evaluate the latest response, replying with whether the response is acceptable and your feedback.") := by
    by_cases h1 : summary = "" <;> by_cases h2 : linkedin = "" <;>
      simp [create_evaluator_prompt, h1, h2, String.append_assoc]
  have hz : 0 < ("\n\nWith this context, please chat with the user, always staying in character as " : String).length := by
    decide
  have hz2 : 0 < ("\n\nWith this context, please evaluate the latest response, replying with whether the response is acceptable and your feedback." : String).length := by
    decide
  refine ⟨e1, e2, ?_, ?_⟩
  · rw [e1]
    simp only [String.length_append]
    omega
  · rw [e2]
    simp only [String.length_append]
    omega

/-- C9: the conversation-history formatter returns the fixed placeholder on
an empty history, and otherwise joins the turns, each rendered as the
title-cased role, a colon and a space, and the content, with blank lines
between consecutive turns. -/
theorem format_history_rendering :
    format_conversation_history [] = "No previous conversation." ∧
    ∀ history : List Msg, history ≠ [] →
      format_conversation_history history
        = pyJoin "\n\n" (history.map fun msg =>
            pyTitle (msg.role.getD "unknown") ++ ": " ++ msg.content.getD "") := by
  constructor
  · rfl
  · intro history hne
    simp only [format_conversation_history, if_neg hne, foldl_push_eq_map, List.nil_append]

/-- C9 witness: a concrete two-turn history rendered in full, showing the
capitalized roles and the blank-line separator. -/
theorem format_history_rendering_witness :
    format_conversation_history
        [⟨some "user", some "hi"⟩, ⟨some "assistant", some "hello"⟩]
      = "User: hi\n\nAssistant: hello" :=
  (format_history_rendering.2 _ (by decide)).trans (by decide)

/-- C10: for a rejected first reply to a message containing the trigger
keyword, the regeneration call's system prompt is built from the base
assistant prompt only, so the pig-latin constraint appended for the first
generation is absent from it (whenever the base prompt, the rejected reply
and the feedback are free of the phrase "pig latin"), while the first
call's prompt did carry the constraint. -/
theorem regeneration_prompt_drops_pig_latin (env : Env) (bot : Bot) (m : String) (h : List Msg)
    (fb : String) (hm : pyStrip m ≠ "")
    (ht : pyIn "patent" (pyLower m) = true)
    (he : env.evaluator (eval_call bot (first_reply env bot m h) m h)
        = EvalOutcome.parsed ⟨false, fb⟩)
    (hsp : ¬ containsStr bot.system_prompt "pig latin")
    (hr : ¬ containsStr (first_reply env bot m h) "pig latin")
    (hfb : ¬ containsStr fb "pig latin") :
    (chat env bot m h).snd =
      [Call.generatorCall (first_call bot m h),
       Call.evaluatorCall (eval_call bot (first_reply env bot m h) m h),
       Call.generatorCall (regen_call bot (first_reply env bot m h) fb m h)] ∧
    system_to_use bot m = bot.system_prompt ++ pigLatinNote ∧
    containsStr (system_to_use bot m) pigLatinNote ∧
    ¬ containsStr (updated_system_prompt bot (first_reply env bot m h) fb) pigLatinNote := by
  refine ⟨?_, ?_, ?_, ?_⟩
  · simp only [chat, chatTry]
    rw [if_neg hm]
    unfold first_reply eval_call at he
    rw [evaluate_response_fst_parsed _ _ _ _ _ _ he]
    simp only [regenerate_response]
    rw [generate_response_snd, evaluate_response_snd, generate_response_snd]
    unfold first_reply first_call eval_call regen_call
    simp
  · unfold system_to_use
    rw [if_pos (by simpa using ht)]
  · unfold system_to_use
    rw [if_pos (by simpa using ht)]
    exact ⟨bot.system_prompt.data, [], by simp⟩
  · exact pigLatinNote_not_in_updated bot _ fb hsp hr hfb

/-- C10 witness: the scenario instantiated at a concrete "patent" message
with a rejecting oracle. -/
theorem regeneration_prompt_drops_pig_latin_witness :
    ((chat envReject demoBot "patent?" []).snd =
      [Call.generatorCall (first_call demoBot "patent?" []),
       Call.evaluatorCall
         (eval_call demoBot (first_reply envReject demoBot "patent?" []) "patent?" []),
       Call.generatorCall
         (regen_call demoBot (first_reply envReject demoBot "patent?" []) "too short"
           "patent?" [])] ∧
    system_to_use demoBot "patent?" = demoBot.system_prompt ++ pigLatinNote ∧
    containsStr (system_to_use demoBot "patent?") pigLatinNote ∧
    ¬ containsStr
        (updated_system_prompt demoBot (first_reply envReject demoBot "patent?" []) "too short")
        pigLatinNote) :=
  regeneration_prompt_drops_pig_latin envReject demoBot "patent?" [] "too short"
    (by decide) (by decide) rfl (by decide) (by decide) (by decide)

end PersonalWebsiteChatbot
